import Mathlib

/-!
Verification of the claudx shim/metrics pipeline.

This file gives a shallow embedding of the core claudx functions
(metrics-collector.ts, metrics-manager.ts, metrics-store.ts, shim-manager.ts,
types.ts, commands.ts and the excluded-executables constant) and proves the
spec-level properties about them.  JavaScript numbers used as exact reals
(SQLite REAL aggregates, millisecond durations) are modelled over the
rationals; 64-bit hrtime counters are modelled as integers; a value that can
be the JS `null` is modelled as an `Option`; a JS function that can throw is
modelled as `Except String`.
-/

namespace Claudx

/-! Token estimation, from src/metrics-collector.ts. -/

/-- Math.ceil(text.length / 4): the fixed character-count token heuristic. -/
def estimateTokens (text : String) : Nat :=
  (text.length + 3) / 4

/-- Statistics about number of tokens used, from metrics-collector.ts. -/
structure TokenInfo where
  inputTokens : Nat
  outputTokens : Nat
  totalTokens : Nat
deriving Repr, DecidableEq

/-- Token extraction: output tokens from stdout ++ stderr, input tokens from
the executable name joined with the arguments. -/
def extractTokensFromOutput (executable stdout stderr : String)
    (args : List String) : TokenInfo :=
  let outputTokens := estimateTokens (stdout ++ stderr)
  let inputText := executable ++ " " ++ String.intercalate " " args
  let inputTokens := estimateTokens inputText
  { inputTokens := inputTokens, outputTokens := outputTokens,
    totalTokens := inputTokens + outputTokens }

/-! Command descriptors, from src/commands.ts and src/types.ts. -/

/-- A description of a command: how many leading arguments are folded into
the canonical tool name. -/
structure CommandDescriptor where
  command : String
  argumentCount : Nat
deriving Repr, DecidableEq

/-- The fixed descriptor table from src/commands.ts. -/
def COMMAND_DESCRIPTORS : List CommandDescriptor :=
  [ { command := "npm", argumentCount := 2 },
    { command := "pnpm", argumentCount := 1 },
    { command := "yarn", argumentCount := 1 },
    { command := "bun", argumentCount := 1 },
    { command := "git", argumentCount := 1 },
    { command := "gh", argumentCount := 1 },
    { command := "make", argumentCount := 1 },
    { command := "cmake", argumentCount := 1 },
    { command := "cargo", argumentCount := 1 },
    { command := "go", argumentCount := 1 },
    { command := "jest", argumentCount := 0 },
    { command := "pytest", argumentCount := 0 },
    { command := "mocha", argumentCount := 0 },
    { command := "vitest", argumentCount := 0 },
    { command := "tsc", argumentCount := 0 },
    { command := "babel", argumentCount := 0 },
    { command := "webpack", argumentCount := 0 },
    { command := "vite", argumentCount := 1 },
    { command := "eslint", argumentCount := 0 },
    { command := "prettier", argumentCount := 0 },
    { command := "ruff", argumentCount := 1 },
    { command := "black", argumentCount := 0 },
    { command := "docker", argumentCount := 1 },
    { command := "docker-compose", argumentCount := 1 },
    { command := "aws", argumentCount := 1 },
    { command := "gcloud", argumentCount := 1 },
    { command := "kubectl", argumentCount := 1 },
    { command := "jq", argumentCount := 1 },
    { command := "curl", argumentCount := 0 },
    { command := "wget", argumentCount := 0 },
    { command := "code", argumentCount := 0 },
    { command := "vim", argumentCount := 0 },
    { command := "nvim", argumentCount := 0 } ]

/-- Canonical tool-name derivation from metrics-collector.ts: no descriptor,
a zero argument count, or an empty argument list give the bare executable
name, otherwise the first argumentCount arguments are appended. -/
def generateToolName (executable : String) (args : List String) : String :=
  match COMMAND_DESCRIPTORS.find? (fun d => d.command == executable) with
  | none => executable
  | some descriptor =>
    if descriptor.argumentCount == 0 || args.length == 0 then
      executable
    else
      executable ++ " " ++ String.intercalate " " (args.take descriptor.argumentCount)

/-! The ToolMetric record, from src/types.ts. -/

/-- The captured invocation context: argument list and working directory. -/
structure ToolParameters where
  args : List String
  cwd : String
deriving Repr, DecidableEq

/-- One record per tool invocation.  hrtime bigint timestamps are integers,
the millisecond duration is a rational, the Date timestamp is kept as its
serialized form. -/
structure ToolMetric where
  id : String
  toolName : String
  startTime : Int
  endTime : Int
  duration : Rat
  success : Bool
  errorMessage : Option String
  parameters : ToolParameters
  timestamp : String
  inputTokens : Nat
  outputTokens : Nat
  totalTokens : Nat
deriving Repr, DecidableEq

/-! The collector run, from executeAndCollect in src/metrics-collector.ts. -/

/-- What the spawned child delivered by the time the close event fired.
closeCode is the code argument of the close handler: Node passes null
(modelled as none) when the child was terminated by a signal. -/
structure SpawnResult where
  closeCode : Option Int
  stdout : String
  stderr : String
deriving Repr, DecidableEq

/-- Either the child ran to the close event, or the spawn itself raised an
error event with a message. -/
inductive SpawnOutcome where
  | completed (r : SpawnResult)
  | spawnError (message : String)
deriving Repr, DecidableEq

/-- The close handler resolves with code || 0, so a null code becomes 0. -/
def resolveCloseCode (code : Option Int) : Int :=
  match code with
  | none => 0
  | some c => c

/-- The ambient data of one collector invocation: the spawn outcome, the
generated metric id, the two hrtime readings, the working directory and the
wall-clock timestamp. -/
structure ExecEnv where
  outcome : SpawnOutcome
  metricId : String
  startTime : Int
  endTime : Int
  cwd : String
  timestamp : String
deriving Repr, DecidableEq

/-- The collector-level saveMetric from metrics-collector.ts: the manager
call is wrapped in try/catch, a failure is logged and swallowed.  Returns
whether the underlying save succeeded. -/
def collectorSaveMetric (save : ToolMetric → Except String Unit)
    (metric : ToolMetric) : Bool :=
  match save metric with
  | Except.ok _ => true
  | Except.error _ => false

/-- What executeAndCollect produces: the metric handed to persistence,
whether persistence succeeded, and the process exit code. -/
structure CollectorResult where
  metric : ToolMetric
  saveDelivered : Bool
  exitCode : Int
deriving Repr, DecidableEq

/-- executeAndCollect from metrics-collector.ts.  On the close path it builds
the metric from the resolved exit code, the token estimates and the canonical
tool name, saves it (errors swallowed) and exits with the resolved code; on
the spawn-error path it builds a failed metric with zero tokens and exits 1. -/
def executeAndCollect (save : ToolMetric → Except String Unit)
    (executable originalPath : String) (args : List String)
    (env : ExecEnv) : CollectorResult :=
  let duration : Rat := ((env.endTime - env.startTime : Int) : Rat) / 1000000
  match env.outcome with
  | SpawnOutcome.completed r =>
    let code := resolveCloseCode r.closeCode
    let tokens := extractTokensFromOutput executable r.stdout r.stderr args
    let toolName := generateToolName executable args
    let metric : ToolMetric :=
      { id := env.metricId
        toolName := toolName
        startTime := env.startTime
        endTime := env.endTime
        duration := duration
        success := code == 0
        errorMessage := if code != 0 then some ("Exit code: " ++ toString code) else none
        parameters := { args := args, cwd := env.cwd }
        timestamp := env.timestamp
        inputTokens := tokens.inputTokens
        outputTokens := tokens.outputTokens
        totalTokens := tokens.totalTokens }
    let delivered := collectorSaveMetric save metric
    { metric := metric, saveDelivered := delivered, exitCode := code }
  | SpawnOutcome.spawnError message =>
    let toolName := generateToolName executable args
    let metric : ToolMetric :=
      { id := env.metricId
        toolName := toolName
        startTime := env.startTime
        endTime := env.endTime
        duration := duration
        success := false
        errorMessage := some message
        parameters := { args := args, cwd := env.cwd }
        timestamp := env.timestamp
        inputTokens := 0
        outputTokens := 0
        totalTokens := 0 }
    let delivered := collectorSaveMetric save metric
    { metric := metric, saveDelivered := delivered, exitCode := 1 }

/-! Executable selection, from src/shim-manager.ts and the excluded-executables
constant (constants/claude-tools-blacklist). -/

/-- The fixed exclusion set of executables never shimmed, transcribed from the
blacklist constant. -/
def EXCLUDED_EXECUTABLES : List String :=
  [ "init", "kernel", "kthreadd", "systemd", "systemctl",
    "sh", "bash", "zsh", "fish", "dash", "csh", "tcsh",
    "sudo", "su", "passwd", "mount", "umount", "fsck", "fdisk", "mkfs",
    "parted", "lvm", "cryptsetup",
    "kill", "killall", "pkill", "ps", "top", "htop",
    "iptables", "firewalld", "ufw", "ssh", "sshd",
    "apt", "apt-get", "yum", "dnf", "pacman", "zypper",
    "claudx", "claudx-shim",
    "node", "npm", "bun",
    "git",
    "cat", "ls", "find", "which", "whereis",
    "tail", "head", "sort", "uniq", "base64", "sed", "grep", "awk",
    "uname", "tr" ]

/-- Extensions that mark a file as usually not an executable. -/
def SKIP_EXTENSIONS : List String :=
  [ ".txt", ".md", ".json", ".xml", ".html", ".css", ".js", ".so", ".a", ".o" ]

/-- Index of the last dot in a character list, if any. -/
def lastDotIdx : List Char → Option Nat
  | [] => none
  | c :: cs =>
    match lastDotIdx cs with
    | some i => some (i + 1)
    | none => if c == '.' then some 0 else none

/-- Node path.extname restricted to bare file names: the suffix from the last
dot on, empty when there is no dot or the name is a leading-dot name (and for
the parent-directory name, which cannot be a regular file anyway). -/
def extname (name : String) : String :=
  if name == ".." then ""
  else
    match lastDotIdx name.data with
    | none => ""
    | some 0 => ""
    | some (i + 1) => String.mk (name.data.drop (i + 1))

/-- JS String.prototype.includes for the one needle the selector uses. -/
def includesSoDot (name : String) : Bool :=
  (name.splitOn ".so.").length != 1

/-- shouldShimExecutable from shim-manager.ts: not excluded, not hidden, no
non-executable extension, not a shared-library-looking name. -/
def shouldShimExecutable (executable : String) : Bool :=
  if EXCLUDED_EXECUTABLES.contains executable then false
  else if executable.startsWith "." then false
  else if SKIP_EXTENSIONS.contains ((extname executable).toLower) then false
  else if includesSoDot executable then false
  else if executable.startsWith "lib" then false
  else true

/-- One directory entry as seen by fs.stat: statOk is false for entries whose
stat call fails (broken symlinks and the like). -/
structure FsEntry where
  name : String
  isFile : Bool
  mode : Nat
  statOk : Bool
deriving Repr, DecidableEq

/-- The stat-based candidate test in discoverAllExecutables: a regular file
with at least one executable permission bit. -/
def entryIsExecutableFile (e : FsEntry) : Bool :=
  e.statOk && e.isFile && (e.mode &&& 0o111 != 0)

/-- One PATH directory listing; none models an unreadable directory, which
the scan skips. -/
abbrev DirListing := Option (List FsEntry)

/-- Lexicographic comparison of character lists by code point, the default
comparator of the JS Array sort used on the discovered names. -/
def charListLe : List Char → List Char → Bool
  | [], _ => true
  | _ :: _, [] => false
  | a :: as, b :: bs =>
    if a.toNat < b.toNat then true
    else if b.toNat < a.toNat then false
    else charListLe as bs

/-- The JS default sort order on names. -/
def jsNameLe (a b : String) : Prop :=
  charListLe a.data b.data = true

instance : DecidableRel jsNameLe :=
  fun a b => inferInstanceAs (Decidable (charListLe a.data b.data = true))

/-- discoverAllExecutables from shim-manager.ts: keep regular executable
files from every readable PATH directory, deduplicate and sort the names.
The per-directory concurrency and the batch width of 50 do not affect the
resulting set. -/
def discoverAllExecutables (pathDirs : List DirListing) : List String :=
  let all := pathDirs.foldl (fun acc d =>
    match d with
    | none => acc
    | some entries => acc ++ (entries.filter entryIsExecutableFile).map (fun e => e.name)) []
  List.insertionSort jsNameLe all.eraseDups

/-- The target-selection step of installShims: the explicit list if one was
given, otherwise the discovered set, filtered through shouldShimExecutable. -/
def installShimTargets (explicit : Option (List String))
    (pathDirs : List DirListing) : List String :=
  (explicit.getD (discoverAllExecutables pathDirs)).filter shouldShimExecutable

/-! The metrics manager, from src/metrics-manager.ts. -/

/-- A write destination, abstracted over its behaviour: the metrics it holds
and on which metrics its save throws. -/
structure WriteDest where
  saved : List ToolMetric
  failsOn : ToolMetric → Bool

/-- One destination save: throws on the metrics the destination fails on,
otherwise appends the record. -/
def destSaveMetric (d : WriteDest) (m : ToolMetric) : Except String WriteDest :=
  if d.failsOn m then Except.error "Error saving metric to dataStore"
  else Except.ok { d with saved := d.saved ++ [m] }

/-- The per-destination try/catch inside MetricsManager.saveMetric: a throw
is logged and the destination keeps its previous state. -/
def caughtSave (d : WriteDest) (m : ToolMetric) : WriteDest :=
  match destSaveMetric d m with
  | Except.ok d2 => d2
  | Except.error _ => d

namespace MetricsManager

/-- MetricsManager.saveMetric: fan the record out to every destination, each
save wrapped in its own catch; the settled fan-out itself never throws. -/
def saveMetric (dests : List WriteDest) (m : ToolMetric) :
    Except String (List WriteDest) :=
  Except.ok (dests.map (fun d => caughtSave d m))

end MetricsManager

/-- The destination type tags of DataDestinationConfig. -/
inductive DestType where
  | sqlite
  | datadog
deriving Repr, DecidableEq

/-- The options object of a destination descriptor. -/
structure DestOptions where
  dbPath : Option String
  apiKey : Option String
  site : Option String
  service : Option String
  env : Option String
deriving Repr, DecidableEq

/-- One destination descriptor from the resolved configuration. -/
structure DestConfig where
  type : DestType
  options : Option DestOptions
deriving Repr, DecidableEq

/-- The fallback descriptor used when no destination initialized:
createDataStore with type sqlite and no options. -/
def fallbackConfig : DestConfig :=
  { type := DestType.sqlite, options := none }

/-- The construction loop of MetricsManager.initialize: each descriptor whose
construction throws is logged and skipped, the rest are kept in order. -/
def collectDestinations {α : Type} (create : DestConfig → Except String α)
    (configs : List DestConfig) : List α :=
  configs.foldl (fun acc c =>
    match create c with
    | Except.ok d => acc ++ [d]
    | Except.error _ => acc) []

/-- MetricsManager.initialize, abstracted over the destination factory: build
every configured destination, and when none survives fall back to one default
sqlite destination (whose own construction failure is not caught). -/
def initDestinations {α : Type} (create : DestConfig → Except String α)
    (configs : List DestConfig) : Except String (List α) :=
  if (collectDestinations create configs).isEmpty then
    match create fallbackConfig with
    | Except.ok d => Except.ok [d]
    | Except.error e => Except.error e
  else Except.ok (collectDestinations create configs)

/-! The read path of the manager and the store query results. -/

/-- A per-tool aggregate row, from MetricsSummary in src/types.ts.  REAL
aggregates are modelled over the rationals. -/
structure MetricsSummary where
  toolName : String
  totalCalls : Nat
  totalDuration : Rat
  avgDuration : Rat
  minDuration : Rat
  maxDuration : Rat
  successRate : Rat
  totalTokens : Int
  avgTokens : Rat
  inputTokens : Int
  outputTokens : Int
deriving Repr, DecidableEq

/-- A read destination abstracted over its behaviour: what its summary and
recent queries return or throw. -/
structure ReadDest where
  summaryResult : Except String (List MetricsSummary)
  recentResult : Option Nat → Except String (List ToolMetric)

namespace MetricsManager

/-- MetricsManager.getMetricsSummary: walk the destinations in configured
order, return the first result that does not throw, and the empty list when
every destination throws. -/
def getMetricsSummary : List ReadDest → List MetricsSummary
  | [] => []
  | d :: rest =>
    match d.summaryResult with
    | Except.ok v => v
    | Except.error _ => getMetricsSummary rest

/-- MetricsManager.getRecentMetrics: same first-non-throwing walk, passing
the caller's limit through to each destination. -/
def getRecentMetrics (limit : Option Nat) : List ReadDest → List ToolMetric
  | [] => []
  | d :: rest =>
    match d.recentResult limit with
    | Except.ok v => v
    | Except.error _ => getRecentMetrics limit rest

end MetricsManager

/-! The embedded-database summary query, from MetricsStore.getMetricsSummary. -/

/-- One stored row of the tool_metrics table, restricted to the columns the
summary query reads. -/
structure MetricRow where
  tool_name : String
  duration : Rat
  success : Bool
  input_tokens : Int
  output_tokens : Int
  total_tokens : Int
deriving Repr, DecidableEq

namespace MetricsStore

/-- The rows of one GROUP BY tool_name group. -/
def rowsForTool (rows : List MetricRow) (name : String) : List MetricRow :=
  rows.filter (fun r => r.tool_name == name)

/-- SQL MIN(duration) over a group. -/
def minDurationOf : List MetricRow → Rat
  | [] => 0
  | r :: rs => rs.foldl (fun acc x => min acc x.duration) r.duration

/-- SQL MAX(duration) over a group. -/
def maxDurationOf : List MetricRow → Rat
  | [] => 0
  | r :: rs => rs.foldl (fun acc x => max acc x.duration) r.duration

/-- The SELECT list of the summary query for one tool_name group: COUNT,
SUM/AVG/MIN/MAX of duration, AVG of the 0/1 success flag, SUM/AVG of
total_tokens and SUM of input_tokens and output_tokens. -/
def summaryRow (rows : List MetricRow) (name : String) : MetricsSummary :=
  let g := rowsForTool rows name
  let n : Rat := (g.length : Rat)
  { toolName := name
    totalCalls := g.length
    totalDuration := (g.map (fun r => r.duration)).sum
    avgDuration := (g.map (fun r => r.duration)).sum / n
    minDuration := minDurationOf g
    maxDuration := maxDurationOf g
    successRate := ((g.countP (fun r => r.success)) : Rat) / n
    totalTokens := (g.map (fun r => r.total_tokens)).sum
    avgTokens := (((g.map (fun r => r.total_tokens)).sum : Int) : Rat) / n
    inputTokens := (g.map (fun r => r.input_tokens)).sum
    outputTokens := (g.map (fun r => r.output_tokens)).sum }

/-- The ORDER BY total_duration DESC relation. -/
def byDurationDesc (a b : MetricsSummary) : Prop :=
  b.totalDuration ≤ a.totalDuration

instance : DecidableRel byDurationDesc :=
  fun a b => inferInstanceAs (Decidable (b.totalDuration ≤ a.totalDuration))

instance : IsTotal MetricsSummary byDurationDesc :=
  ⟨fun a b => le_total b.totalDuration a.totalDuration⟩

instance : IsTrans MetricsSummary byDurationDesc :=
  ⟨fun _ _ _ h1 h2 => le_trans h2 h1⟩

/-- MetricsStore.getMetricsSummary: one summary row per distinct tool_name,
ordered by descending total duration. -/
def getMetricsSummary (rows : List MetricRow) : List MetricsSummary :=
  let names := (rows.map (fun r => r.tool_name)).eraseDups
  List.insertionSort byDurationDesc (names.map (summaryRow rows))

end MetricsStore

/-! The auto-shim staleness check, from AutoShimManager.shouldUpdateShims. -/

/-- A JS number that is either NaN or an integer, the possible results of
Number.parseInt on a timestamp file. -/
inductive JsNumber where
  | nan
  | val (n : Int)
deriving Repr, DecidableEq

/-- Number.parseInt in radix 10: skip leading whitespace, read an optional
sign and then leading digits, NaN when there is no digit. -/
def parseIntJs (s : String) : JsNumber :=
  let cs := s.data.dropWhile (fun c => c == ' ' || c == '\t' || c == '\n' || c == '\r')
  let signAndRest : Int × List Char :=
    match cs with
    | '-' :: t => (-1, t)
    | '+' :: t => (1, t)
    | t => (1, t)
  let digits := signAndRest.2.takeWhile Char.isDigit
  if digits.isEmpty then JsNumber.nan
  else JsNumber.val (signAndRest.1 *
    (digits.foldl (fun acc c => 10 * acc + ((c.toNat : Int) - ('0'.toNat : Int))) 0))

/-- The 24-hour update interval in milliseconds. -/
def updateInterval : Int := 24 * 60 * 60 * 1000

/-- JS subtraction where the subtrahend may be NaN. -/
def jsSub (a : Int) (b : JsNumber) : JsNumber :=
  match b with
  | JsNumber.nan => JsNumber.nan
  | JsNumber.val n => JsNumber.val (a - n)

/-- JS strict greater-than: any comparison against NaN is false. -/
def jsGt (a : JsNumber) (b : Int) : Bool :=
  match a with
  | JsNumber.nan => false
  | JsNumber.val n => b < n

/-- AutoShimManager.shouldUpdateShims: a failed read of the timestamp file
(none) is caught and forces an update; otherwise the file content goes
through parseInt and the NaN-propagating age comparison. -/
def shouldUpdateShims (fileContent : Option String) (now : Int) : Bool :=
  match fileContent with
  | none => true
  | some content => jsGt (jsSub now (parseIntJs content)) updateInterval

/-! Concrete sample inputs used to evaluate the verified statements. -/

/-- A run in which the child exited with status 3 and produced some output. -/
def demoEnvExit3 : ExecEnv :=
  { outcome := SpawnOutcome.completed { closeCode := some 3, stdout := "out", stderr := "" }
    metricId := "m-exit3"
    startTime := 0
    endTime := 5000000
    cwd := "/repo"
    timestamp := "2026-01-01T00:00:00.000Z" }

/-- A run in which the child exited with status 2. -/
def demoEnvExit2 : ExecEnv :=
  { outcome := SpawnOutcome.completed { closeCode := some 2, stdout := "", stderr := "boom" }
    metricId := "m-exit2"
    startTime := 0
    endTime := 3000000
    cwd := "/repo"
    timestamp := "2026-01-01T00:00:01.000Z" }

/-- A close event fired for a signal-terminated child: its code is null. -/
def signalSpawn : SpawnResult :=
  { closeCode := none, stdout := "", stderr := "" }

/-- A run whose child was terminated by a signal before exiting. -/
def signalEnv : ExecEnv :=
  { outcome := SpawnOutcome.completed signalSpawn
    metricId := "m-signal"
    startTime := 0
    endTime := 1000000
    cwd := "/repo"
    timestamp := "2026-01-01T00:00:02.000Z" }

/-- A sample metric record. -/
def demoMetric : ToolMetric :=
  { id := "id-1"
    toolName := "cargo build"
    startTime := 0
    endTime := 2000000
    duration := 2
    success := true
    errorMessage := none
    parameters := { args := ["build"], cwd := "/repo" }
    timestamp := "2026-01-01T00:00:03.000Z"
    inputTokens := 3
    outputTokens := 5
    totalTokens := 8 }

/-- A destination whose save always throws. -/
def failingDest : WriteDest :=
  { saved := [], failsOn := fun _ => true }

/-- A healthy destination. -/
def healthyDest : WriteDest :=
  { saved := [], failsOn := fun _ => false }

/-- A destination factory for which sqlite construction succeeds and datadog
construction fails. -/
def demoCreate : DestConfig → Except String String := fun c =>
  match c.type with
  | DestType.sqlite => Except.ok "sqlite destination"
  | DestType.datadog => Except.error "construction failed"

/-- A sample summary row. -/
def sampleSummary : MetricsSummary :=
  { toolName := "npm install"
    totalCalls := 1
    totalDuration := 10
    avgDuration := 10
    minDuration := 10
    maxDuration := 10
    successRate := 1
    totalTokens := 5
    avgTokens := 5
    inputTokens := 3
    outputTokens := 2 }

/-- A read destination whose queries always throw. -/
def throwingDest : ReadDest :=
  { summaryResult := Except.error "read failed"
    recentResult := fun _ => Except.error "read failed" }

/-- A push-only read destination: reads return empty without throwing. -/
def pushOnlyDest : ReadDest :=
  { summaryResult := Except.ok []
    recentResult := fun _ => Except.ok [] }

/-- A read-capable destination holding data. -/
def sqliteReadDest : ReadDest :=
  { summaryResult := Except.ok [sampleSummary]
    recentResult := fun _ => Except.ok [demoMetric] }

/-- A one-directory search path on which git is a regular executable file. -/
def demoPathDirs : List DirListing :=
  [ some [ { name := "git", isFile := true, mode := 0o755, statOk := true },
           { name := "rustc", isFile := true, mode := 0o755, statOk := true } ] ]

/-- Three stored invocations of one tool: durations 10, 20, 30 ms with
exactly one failure. -/
def exampleRows : List MetricRow :=
  [ { tool_name := "cargo build", duration := 10, success := true,
      input_tokens := 0, output_tokens := 0, total_tokens := 0 },
    { tool_name := "cargo build", duration := 20, success := true,
      input_tokens := 0, output_tokens := 0, total_tokens := 0 },
    { tool_name := "cargo build", duration := 30, success := false,
      input_tokens := 0, output_tokens := 0, total_tokens := 0 } ]

/-- The summary row the spec predicts for exampleRows. -/
def exampleSummary : MetricsSummary :=
  { toolName := "cargo build"
    totalCalls := 3
    totalDuration := 60
    avgDuration := 20
    minDuration := 10
    maxDuration := 30
    successRate := 2 / 3
    totalTokens := 0
    avgTokens := 0
    inputTokens := 0
    outputTokens := 0 }

/-! Theorems. -/

/-- C1: when the wrapped child runs to completion with exit status c, the
collector exits with c, for every persistence behaviour — a failure inside
saveMetric is caught and never changes the exit code. -/
theorem collector_exit_code_transparent
    (save : ToolMetric → Except String Unit) (executable originalPath : String)
    (args : List String) (env : ExecEnv) (r : SpawnResult) (c : Int)
    (hout : env.outcome = SpawnOutcome.completed r)
    (hcode : r.closeCode = some c) :
    (executeAndCollect save executable originalPath args env).exitCode = c := by
  obtain ⟨o, mid, st, et, cwd, ts⟩ := env
  cases hout
  simp [executeAndCollect, resolveCloseCode, hcode]

/-- C1 witness: a child exiting 3 while the database save throws still makes
the collector exit 3. -/
theorem collector_exit_code_transparent_witness :
    (executeAndCollect (fun _ => Except.error "db locked") "cargo" "/usr/bin/cargo"
      ["build"] demoEnvExit3).exitCode = 3 :=
  collector_exit_code_transparent (fun _ => Except.error "db locked") "cargo"
    "/usr/bin/cargo" ["build"] demoEnvExit3
    { closeCode := some 3, stdout := "out", stderr := "" } 3 rfl rfl

/-- C2: on both the close path and the spawn-error path the metric handed to
persistence satisfies totalTokens = inputTokens + outputTokens. -/
theorem collector_totalTokens_eq_sum
    (save : ToolMetric → Except String Unit) (executable originalPath : String)
    (args : List String) (env : ExecEnv) :
    (executeAndCollect save executable originalPath args env).metric.totalTokens =
      (executeAndCollect save executable originalPath args env).metric.inputTokens +
        (executeAndCollect save executable originalPath args env).metric.outputTokens := by
  obtain ⟨o, mid, st, et, cwd, ts⟩ := env
  cases o <;> simp [executeAndCollect, extractTokensFromOutput]

/-- C3 counterexample: the claim that success is true iff the wrapped process
exited with status 0 fails on a signal-terminated child — its close event
carries a null code, which the handler coerces to 0, so the recorded metric
says success although the child never exited with status 0. -/
theorem collector_success_null_code_counterexample :
    signalEnv.outcome = SpawnOutcome.completed signalSpawn ∧
    signalSpawn.closeCode ≠ some 0 ∧
    (executeAndCollect (fun _ => Except.ok ()) "sleep" "/bin/sleep" ["100"]
      signalEnv).metric.success = true := by
  refine ⟨rfl, by decide, rfl⟩

/-- C3 amended: the recorded success flag equals (resolved exit code == 0),
where the close handler resolves a null code to 0; in particular success is
false for every non-zero exit status and false on a spawn error. -/
theorem collector_success_amended
    (save : ToolMetric → Except String Unit) (executable originalPath : String)
    (args : List String) (env : ExecEnv) :
    (∀ r, env.outcome = SpawnOutcome.completed r →
      (executeAndCollect save executable originalPath args env).metric.success =
        (resolveCloseCode r.closeCode == 0)) ∧
    (∀ msg, env.outcome = SpawnOutcome.spawnError msg →
      (executeAndCollect save executable originalPath args env).metric.success = false) := by
  obtain ⟨o, mid, st, et, cwd, ts⟩ := env
  constructor
  · intro r h
    cases h
    rfl
  · intro msg h
    cases h
    rfl

/-- C3 amended witness: a child exiting 2 is recorded with the success flag
computed from its resolved exit code, which is false. -/
theorem collector_success_amended_witness :
    (executeAndCollect (fun _ => Except.ok ()) "ls" "/bin/ls" []
      demoEnvExit2).metric.success = (resolveCloseCode (some 2) == 0) :=
  (collector_success_amended (fun _ => Except.ok ()) "ls" "/bin/ls" [] demoEnvExit2).1
    { closeCode := some 2, stdout := "", stderr := "boom" } rfl

/-- C4: the canonical name is the bare executable name when the executable
has no descriptor, its argument count is zero or no arguments were given;
otherwise it is the executable name, a space and the first
min(argumentCount, number of arguments) arguments joined by spaces. -/
theorem generateToolName_spec (executable : String) (args : List String) :
    ((COMMAND_DESCRIPTORS.find? (fun d => d.command == executable) = none ∨
      (∃ d, COMMAND_DESCRIPTORS.find? (fun d => d.command == executable) = some d ∧
        d.argumentCount = 0) ∨
      args = []) →
      generateToolName executable args = executable) ∧
    (∀ d, COMMAND_DESCRIPTORS.find? (fun d => d.command == executable) = some d →
      d.argumentCount ≠ 0 → args ≠ [] →
      generateToolName executable args =
        executable ++ " " ++
          String.intercalate " " (args.take (min d.argumentCount args.length))) := by
  constructor
  · intro h
    rcases h with h | ⟨d, hd, hz⟩ | h
    · simp [generateToolName, h]
    · simp [generateToolName, hd, hz]
    · cases hf : COMMAND_DESCRIPTORS.find? (fun d => d.command == executable) with
      | none => simp [generateToolName, hf]
      | some d => simp [generateToolName, hf, h]
  · intro d hd hz ha
    have htake : args.take d.argumentCount = args.take (min d.argumentCount args.length) := by
      rcases Nat.le_total d.argumentCount args.length with h | h
      · rw [Nat.min_eq_left h]
      · rw [Nat.min_eq_right h, List.take_length, List.take_of_length_le h]
    simp [generateToolName, hd, hz, ha, htake]

/-- C4 witness: npm has argument count 2, so three arguments fold the first
two into the name; npm with no arguments and an unregistered tool give the
bare name. -/
theorem generateToolName_spec_witness :
    generateToolName "npm" ["install", "pkg", "extra"] = "npm install pkg" ∧
    generateToolName "npm" [] = "npm" ∧
    generateToolName "mytool" ["a", "b"] = "mytool" := by
  refine ⟨?_, ?_, ?_⟩
  · have h := (generateToolName_spec "npm" ["install", "pkg", "extra"]).2
      { command := "npm", argumentCount := 2 } rfl (by decide) (by decide)
    rw [h]
    decide
  · exact (generateToolName_spec "npm" []).1 (Or.inr (Or.inr rfl))
  · exact (generateToolName_spec "mytool" ["a", "b"]).1 (Or.inl rfl)

/-- C5: a name in the fixed exclusion set is never selected for shimming by
the installShims target selection, neither from a discovered search path nor
from an explicit list, whatever executables the search path holds. -/
theorem excluded_never_shimmed (explicit : Option (List String))
    (pathDirs : List DirListing) (name : String)
    (hx : name ∈ EXCLUDED_EXECUTABLES) :
    name ∉ installShimTargets explicit pathDirs := by
  intro hmem
  have h2 : shouldShimExecutable name = true :=
    (List.mem_filter.mp hmem).2
  have hc : EXCLUDED_EXECUTABLES.contains name = true := by
    simpa [List.contains] using hx
  rw [shouldShimExecutable, hc] at h2
  simp at h2

/-- C5 witness: git is in the exclusion set and is a regular executable file
on the sample search path — it is discovered there, yet never selected for
shimming. -/
theorem excluded_never_shimmed_witness :
    "git" ∈ EXCLUDED_EXECUTABLES ∧
    "git" ∈ discoverAllExecutables demoPathDirs ∧
    "git" ∉ installShimTargets none demoPathDirs :=
  ⟨by decide, by decide,
    excluded_never_shimmed none demoPathDirs "git" (by decide)⟩

/-- C6: the manager fan-out save never raises: it returns the per-destination
caught saves of every configured destination, a healthy destination always
receives the metric, and a failing destination is left unchanged — so one
destination's failure cannot affect any other. -/
theorem managerSaveMetric_isolation (dests : List WriteDest) (m : ToolMetric) :
    MetricsManager.saveMetric dests m =
      Except.ok (dests.map (fun d => caughtSave d m)) ∧
    (∀ d ∈ dests, d.failsOn m = false →
      (caughtSave d m).saved = d.saved ++ [m]) ∧
    (∀ d ∈ dests, d.failsOn m = true → caughtSave d m = d) := by
  refine ⟨rfl, ?_, ?_⟩
  · intro d _ hfail
    simp [caughtSave, destSaveMetric, hfail]
  · intro d _ hfail
    simp [caughtSave, destSaveMetric, hfail]

/-- C6 witness: with a throwing destination listed before a healthy one, the
healthy destination still persists the metric. -/
theorem managerSaveMetric_isolation_witness :
    (caughtSave healthyDest demoMetric).saved = healthyDest.saved ++ [demoMetric] :=
  (managerSaveMetric_isolation [failingDest, healthyDest] demoMetric).2.1
    healthyDest (by simp) rfl

/-- Helper: when every configured construction fails, the construction loop
leaves its accumulator untouched. -/
theorem collectDestinations_all_fail {α : Type} (create : DestConfig → Except String α) :
    ∀ (configs : List DestConfig), (∀ c ∈ configs, ∀ x, create c ≠ Except.ok x) →
    ∀ (acc : List α),
      configs.foldl (fun acc c =>
        match create c with
        | Except.ok d => acc ++ [d]
        | Except.error _ => acc) acc = acc := by
  intro configs
  induction configs with
  | nil =>
    intro _ acc
    rfl
  | cons c rest ih =>
    intro h acc
    rw [List.foldl_cons]
    cases hcr : create c with
    | ok x => exact absurd hcr (h c (by simp) x)
    | error e =>
      simp only [hcr]
      exact ih (fun c2 hc2 => h c2 (by simp [hc2])) acc

/-- C7: when every configured destination fails to construct (in particular
when none is configured) and the fallback construction completes, initialize
ends with exactly one active destination — the one built from the default
local sqlite descriptor. -/
theorem initDestinations_fallback {α : Type} (create : DestConfig → Except String α)
    (configs : List DestConfig) (d : α)
    (hall : ∀ c ∈ configs, ∀ x, create c ≠ Except.ok x)
    (hfb : create fallbackConfig = Except.ok d) :
    initDestinations create configs = Except.ok [d] := by
  have hnil : collectDestinations create configs = [] :=
    collectDestinations_all_fail create configs hall []
  simp [initDestinations, hnil, hfb]

/-- C7 witness: a single datadog descriptor that fails to construct, and an
empty configuration, both end with exactly the default sqlite destination. -/
theorem initDestinations_fallback_witness :
    initDestinations demoCreate [{ type := DestType.datadog, options := none }] =
      Except.ok ["sqlite destination"] ∧
    initDestinations demoCreate [] = Except.ok ["sqlite destination"] := by
  constructor
  · exact initDestinations_fallback demoCreate
      [{ type := DestType.datadog, options := none }] "sqlite destination"
      (by
        intro c hc x
        simp only [List.mem_singleton] at hc
        subst hc
        simp [demoCreate])
      rfl
  · exact initDestinations_fallback demoCreate [] "sqlite destination"
      (by intro c hc x; simp at hc) rfl

/-- C8: both manager read queries walk the destinations in configured order,
return the result of the first call that does not throw — an empty result
included — and return the empty list when every destination throws. -/
theorem managerRead_first_non_throwing :
    (∀ (pre post : List ReadDest) (d : ReadDest) (v : List MetricsSummary),
      (∀ p ∈ pre, ∃ e, p.summaryResult = Except.error e) →
      d.summaryResult = Except.ok v →
      MetricsManager.getMetricsSummary (pre ++ d :: post) = v) ∧
    (∀ dests : List ReadDest,
      (∀ p ∈ dests, ∃ e, p.summaryResult = Except.error e) →
      MetricsManager.getMetricsSummary dests = []) ∧
    (∀ (limit : Option Nat) (pre post : List ReadDest) (d : ReadDest)
        (w : List ToolMetric),
      (∀ p ∈ pre, ∃ e, p.recentResult limit = Except.error e) →
      d.recentResult limit = Except.ok w →
      MetricsManager.getRecentMetrics limit (pre ++ d :: post) = w) ∧
    (∀ (limit : Option Nat) (dests : List ReadDest),
      (∀ p ∈ dests, ∃ e, p.recentResult limit = Except.error e) →
      MetricsManager.getRecentMetrics limit dests = []) := by
  refine ⟨?_, ?_, ?_, ?_⟩
  · intro pre
    induction pre with
    | nil =>
      intro post d v _ hd
      simp [MetricsManager.getMetricsSummary, hd]
    | cons p rest ih =>
      intro post d v hpre hd
      obtain ⟨e, he⟩ := hpre p (by simp)
      simp only [List.cons_append, MetricsManager.getMetricsSummary, he]
      exact ih post d v (fun q hq => hpre q (by simp [hq])) hd
  · intro dests
    induction dests with
    | nil =>
      intro _
      rfl
    | cons p rest ih =>
      intro hall
      obtain ⟨e, he⟩ := hall p (by simp)
      simp only [MetricsManager.getMetricsSummary, he]
      exact ih (fun q hq => hall q (by simp [hq]))
  · intro limit pre
    induction pre with
    | nil =>
      intro post d w _ hd
      simp [MetricsManager.getRecentMetrics, hd]
    | cons p rest ih =>
      intro post d w hpre hd
      obtain ⟨e, he⟩ := hpre p (by simp)
      simp only [List.cons_append, MetricsManager.getRecentMetrics, he]
      exact ih post d w (fun q hq => hpre q (by simp [hq])) hd
  · intro limit dests
    induction dests with
    | nil =>
      intro _
      rfl
    | cons p rest ih =>
      intro hall
      obtain ⟨e, he⟩ := hall p (by simp)
      simp only [MetricsManager.getRecentMetrics, he]
      exact ih (fun q hq => hall q (by simp [hq]))

/-- C8 witness: a throwing destination, then a push-only destination whose
empty non-throwing answer is accepted as final even though a read-capable
destination with data is listed after it. -/
theorem managerRead_first_non_throwing_witness :
    MetricsManager.getMetricsSummary [throwingDest, pushOnlyDest, sqliteReadDest] = [] :=
  managerRead_first_non_throwing.1 [throwingDest] [sqliteReadDest] pushOnlyDest []
    (fun p hp => ⟨"read failed", by
      simp only [List.mem_singleton] at hp
      subst hp
      rfl⟩)
    rfl

/-- Helper: the toolName of a computed summary row is its group name. -/
theorem summaryRow_toolName (rows : List MetricRow) (n : String) :
    (MetricsStore.summaryRow rows n).toolName = n := rfl

/-- C9: the summary query yields one aggregate row per distinct stored
tool_name, each computed by the grouped SELECT aggregates, ordered by
descending total duration; in particular three invocations of one tool with
durations 10, 20, 30 and one failure report totalCalls 3, totalDuration 60,
avgDuration 20, successRate 2/3. -/
theorem store_getMetricsSummary_spec :
    (∀ rows, List.Sorted MetricsStore.byDurationDesc
      (MetricsStore.getMetricsSummary rows)) ∧
    (∀ rows, ((MetricsStore.getMetricsSummary rows).map (fun s => s.toolName)).Perm
      ((rows.map (fun r => r.tool_name)).eraseDups)) ∧
    (∀ rows s, s ∈ MetricsStore.getMetricsSummary rows →
      s = MetricsStore.summaryRow rows s.toolName) ∧
    MetricsStore.getMetricsSummary exampleRows = [exampleSummary] := by
  refine ⟨?_, ?_, ?_, ?_⟩
  · intro rows
    exact List.sorted_insertionSort MetricsStore.byDurationDesc _
  · intro rows
    have hcomp : ((fun s : MetricsSummary => s.toolName) ∘ MetricsStore.summaryRow rows) =
        id := funext fun n => rfl
    have hperm := (List.perm_insertionSort MetricsStore.byDurationDesc
      (((rows.map (fun r => r.tool_name)).eraseDups).map
        (MetricsStore.summaryRow rows))).map (fun s => s.toolName)
    rw [List.map_map, hcomp, List.map_id] at hperm
    exact hperm
  · intro rows s hs
    have hmem : s ∈ ((rows.map (fun r => r.tool_name)).eraseDups).map
        (MetricsStore.summaryRow rows) :=
      (List.perm_insertionSort MetricsStore.byDurationDesc _).subset hs
    obtain ⟨n, _, hsn⟩ := List.mem_map.mp hmem
    subst hsn
    rfl
  · have h1 : MetricsStore.getMetricsSummary exampleRows =
        [MetricsStore.summaryRow exampleRows "cargo build"] := rfl
    have hg : MetricsStore.rowsForTool exampleRows "cargo build" = exampleRows := rfl
    rw [h1]
    refine congrArg (fun s => [s]) ?_
    have hlen : exampleRows.length = 3 := rfl
    have hsum : (exampleRows.map (fun r => r.duration)).sum = 60 := by
      norm_num [exampleRows]
    have hmin : MetricsStore.minDurationOf exampleRows = 10 := by
      simp only [exampleRows, MetricsStore.minDurationOf, List.foldl_cons, List.foldl_nil]
      rw [min_eq_left (show (10:ℚ) ≤ 20 by norm_num),
        min_eq_left (show (10:ℚ) ≤ 30 by norm_num)]
    have hmax : MetricsStore.maxDurationOf exampleRows = 30 := by
      simp only [exampleRows, MetricsStore.maxDurationOf, List.foldl_cons, List.foldl_nil]
      rw [max_eq_right (show (10:ℚ) ≤ 20 by norm_num),
        max_eq_right (show (20:ℚ) ≤ 30 by norm_num)]
    have hcount : exampleRows.countP (fun r => r.success) = 2 := rfl
    have htok : (exampleRows.map (fun r => r.total_tokens)).sum = 0 := rfl
    have hitok : (exampleRows.map (fun r => r.input_tokens)).sum = 0 := rfl
    have hotok : (exampleRows.map (fun r => r.output_tokens)).sum = 0 := rfl
    simp only [MetricsStore.summaryRow, hg, hlen, hsum, hmin, hmax, hcount, htok,
      hitok, hotok, exampleSummary, MetricsSummary.mk.injEq]
    norm_num

/-- C9 witness: the predicted summary row is among the computed summaries and
agrees with the grouped aggregates of its own tool name. -/
theorem store_getMetricsSummary_spec_witness :
    exampleSummary = MetricsStore.summaryRow exampleRows exampleSummary.toolName :=
  store_getMetricsSummary_spec.2.2.1 exampleRows exampleSummary
    (by rw [store_getMetricsSummary_spec.2.2.2]; exact List.mem_singleton.mpr rfl)

/-- C10: a missing timestamp file forces a shim refresh, but a timestamp file
whose content parses to NaN silently suppresses it, because the NaN age
comparison evaluates to false. -/
theorem shouldUpdateShims_nan_quirk :
    (∀ now, shouldUpdateShims none now = true) ∧
    (∀ now content, parseIntJs content = JsNumber.nan →
      shouldUpdateShims (some content) now = false) := by
  refine ⟨fun now => rfl, ?_⟩
  intro now content h
  simp [shouldUpdateShims, h, jsSub, jsGt]

/-- C10 witness: with a corrupt timestamp file the refresh is suppressed at a
concrete clock value, while a missing file triggers it. -/
theorem shouldUpdateShims_nan_quirk_witness :
    shouldUpdateShims none 1760000000000 = true ∧
    shouldUpdateShims (some "corrupted-timestamp") 1760000000000 = false :=
  ⟨shouldUpdateShims_nan_quirk.1 1760000000000,
    shouldUpdateShims_nan_quirk.2 1760000000000 "corrupted-timestamp" rfl⟩

end Claudx
